import Mathlib

/-!
Verification of the AgriHub mobile client's order and cart transaction
lifecycle: the Zustand cart store, the checkout sequence, the farmer-side
order-status coordinator, and the socket listener registry.  Each definition
is a shallow embedding of the corresponding TypeScript function; remote calls
are modelled by passing their outcome (`Except String a`, an error value being
a thrown message) as an explicit argument.  Currency amounts are modelled as
integers (minor units); the client never computes a cart total itself, it only
copies server-reported totals, so this loses nothing.
-/

namespace Agrihub

/-- Product snapshot held by the client (src/frontend/src/types/index.ts).
Display-only fields (images, description, rating, timestamps, moderation
status) are omitted; the price is an integer amount in minor units. -/
structure Product where
  id : String
  farmer_id : String
  name : String
  category : String
  price : Int
  quantity : Int
deriving DecidableEq

/-- Cart line item (types/index.ts).  The product reference is an optional
field in the source, which is what the checkout validation checks. -/
structure CartItem where
  id : String
  buyer_id : String
  product_id : String
  quantity : Int
  product : Option Product
deriving DecidableEq

/-- Subtotal of one cart line: quantity times the referenced product's price
(0 when the product reference is missing). -/
def itemSubtotal (i : CartItem) : Int :=
  i.quantity * (match i.product with
    | some p => p.price
    | none => 0)

/-- Sum of the line subtotals of a list of cart items. -/
def cartSum (items : List CartItem) : Int :=
  (items.map itemSubtotal).sum

/-- Shape of a GET /cart response as consumed by fetchCart: the server reports
both the items and the total. -/
structure CartResponse where
  items : List CartItem
  total : Int
deriving DecidableEq

/-- The cart cache of useCartStore (src/unnamed/part_003): items, total and
the loading flag. -/
structure CartStore where
  items : List CartItem
  total : Int
  loading : Bool
deriving DecidableEq

/-- fetchCart (part_003, lines 11-20).  On success the cache is replaced
wholesale with the server-reported items and total; on failure the catch block
only logs and resets the loading flag, leaving items and total as they were. -/
def fetchCart (st : CartStore) (remote : Except String CartResponse) : CartStore :=
  match remote with
  | Except.ok r => { items := r.items, total := r.total, loading := false }
  | Except.error _ => { st with loading := false }

/-- The whole fetchCart call as observed by its caller: the resulting cache
together with the error propagated to the caller.  The source catch block
swallows the error (console.error only, no rethrow), so the propagated error
is always `none`. -/
def fetchCartCall (st : CartStore) (remote : Except String CartResponse) :
    CartStore × Option String :=
  (fetchCart st remote, none)

/-- addToCart (part_003, lines 22-30): performs the remote add; a failure is
rethrown with the cache untouched, a success is followed by fetchCart (whose
own failure is swallowed inside fetchCart). -/
def addToCart (st : CartStore) (productId : String) (quantity : Int)
    (res : Except String Unit) (remote : Except String CartResponse) :
    CartStore × Option String :=
  match res with
  | Except.error e => (st, some e)
  | Except.ok _ => (fetchCart st remote, none)

/-- updateQuantity (part_003, lines 32-40): remote update then fetchCart,
same failure behaviour as addToCart. -/
def updateQuantity (st : CartStore) (cartItemId : String) (quantity : Int)
    (res : Except String Unit) (remote : Except String CartResponse) :
    CartStore × Option String :=
  match res with
  | Except.error e => (st, some e)
  | Except.ok _ => (fetchCart st remote, none)

/-- removeFromCart (part_003, lines 42-50): remote delete then fetchCart,
same failure behaviour as addToCart. -/
def removeFromCart (st : CartStore) (cartItemId : String)
    (res : Except String Unit) (remote : Except String CartResponse) :
    CartStore × Option String :=
  match res with
  | Except.error e => (st, some e)
  | Except.ok _ => (fetchCart st remote, none)

/-- clearCart (part_003, lines 52-60): on success it sets items := [] and
total := 0 directly, with no refetch; on failure it rethrows with the cache
untouched. -/
def clearCart (st : CartStore) (res : Except String Unit) :
    CartStore × Option String :=
  match res with
  | Except.error e => (st, some e)
  | Except.ok _ => ({ st with items := [], total := 0 }, none)

deriving instance DecidableEq for Except

/-- One Cart Manager operation together with the remote outcomes it consumes
during its run. -/
inductive CartOp where
  | fetchOp (remote : Except String CartResponse)
  | addOp (productId : String) (quantity : Int) (res : Except String Unit)
      (remote : Except String CartResponse)
  | updateOp (cartItemId : String) (quantity : Int) (res : Except String Unit)
      (remote : Except String CartResponse)
  | removeOp (cartItemId : String) (res : Except String Unit)
      (remote : Except String CartResponse)
  | clearOp (res : Except String Unit)
deriving DecidableEq

/-- Effect of one Cart Manager operation on the cache. -/
def runOp (st : CartStore) : CartOp → CartStore
  | CartOp.fetchOp remote => fetchCart st remote
  | CartOp.addOp pid q res remote => (addToCart st pid q res remote).1
  | CartOp.updateOp iid q res remote => (updateQuantity st iid q res remote).1
  | CartOp.removeOp iid res remote => (removeFromCart st iid res remote).1
  | CartOp.clearOp res => (clearCart st res).1

/-- Effect of a sequence of Cart Manager operations on the cache. -/
def runOps (st : CartStore) (ops : List CartOp) : CartStore :=
  ops.foldl runOp st

/-- A server cart response is consistent when its reported total equals the
sum of its items' subtotals (the data-model contract of the remote service). -/
def respConsistent (r : CartResponse) : Bool :=
  decide (r.total = cartSum r.items)

/-- An operation is consistent when every successful cart response it carries
is consistent. -/
def opConsistent : CartOp → Bool
  | CartOp.fetchOp (Except.ok r) => respConsistent r
  | CartOp.addOp _ _ _ (Except.ok r) => respConsistent r
  | CartOp.updateOp _ _ _ (Except.ok r) => respConsistent r
  | CartOp.removeOp _ _ (Except.ok r) => respConsistent r
  | _ => true

/-- Action dispatched by the cart screen for one line item: either the remove
confirmation flow or a store quantity update (src/frontend/app/cart.tsx). -/
inductive CartItemAction where
  | confirmRemove (itemId : String)
  | storeUpdate (itemId : String) (quantity : Int)
deriving DecidableEq

/-- handleRemoveItem (cart.tsx, lines 36-58): shows the remove confirmation
dialog for the item (which on confirm runs removeFromCart). -/
def handleRemoveItem (itemId : String) : CartItemAction :=
  CartItemAction.confirmRemove itemId

/-- handleUpdateQuantity (cart.tsx, lines 20-34): a requested quantity below 1
is redirected to the remove flow, otherwise the store update runs. -/
def handleUpdateQuantity (itemId : String) (newQuantity : Int) : CartItemAction :=
  if newQuantity < 1 then handleRemoveItem itemId
  else CartItemAction.storeUpdate itemId newQuantity

/-- Result shape of the simulated payment call (POST /payment/process). -/
structure PaymentResult where
  success : Bool
  transaction_id : String
deriving DecidableEq

/-- Navigation targets used by the checkout screen. -/
inductive Route where
  | paymentFailure
  | paymentSuccess
  | backRoute
deriving DecidableEq

/-- Alerts the checkout screen can show. -/
inductive CheckoutAlert where
  | requiredAddress
  | emptyCart
  | cartError
  | errorMsg (msg : String)
deriving DecidableEq

/-- Observable outcome of one handlePayment invocation: the navigation
performed (if any), the alert shown (if any), how many times order creation
was attempted and how many orders were created, and the cart cache afterwards. -/
structure CheckoutResult where
  route : Option Route
  alert : Option CheckoutAlert
  orderCreateCalls : Nat
  ordersCreated : Nat
  cartAfter : CartStore
deriving DecidableEq

/-- Models the JS test that address.trim() is empty: true exactly when every
character of the address is whitespace. -/
def isBlank (s : String) : Bool :=
  s.data.all (fun c => c.isWhitespace)

/-- handlePayment (src/frontend/app/checkout.tsx, lines 18-69).  Precondition
checks (blank address, empty cart, item with a missing product reference) stop
before any remote call.  A payment returning success=false navigates to the
failure screen.  Otherwise order creation is attempted once; its failure (and
a thrown payment call) lands in the catch block, which shows an error alert
and performs no navigation.  The function never touches the cart store, so the
cart cache after the call is the cart cache before it. -/
def handlePayment (cart : CartStore) (address : String)
    (payment : Except String PaymentResult) (orderCreate : Except String Unit) :
    CheckoutResult :=
  if isBlank address then
    { route := none, alert := some CheckoutAlert.requiredAddress,
      orderCreateCalls := 0, ordersCreated := 0, cartAfter := cart }
  else if cart.items.length = 0 then
    { route := some Route.backRoute, alert := some CheckoutAlert.emptyCart,
      orderCreateCalls := 0, ordersCreated := 0, cartAfter := cart }
  else if cart.items.any (fun i => i.product.isNone) then
    { route := none, alert := some CheckoutAlert.cartError,
      orderCreateCalls := 0, ordersCreated := 0, cartAfter := cart }
  else
    match payment with
    | Except.error e =>
        { route := none, alert := some (CheckoutAlert.errorMsg e),
          orderCreateCalls := 0, ordersCreated := 0, cartAfter := cart }
    | Except.ok pr =>
        if pr.success = false then
          { route := some Route.paymentFailure, alert := none,
            orderCreateCalls := 0, ordersCreated := 0, cartAfter := cart }
        else
          match orderCreate with
          | Except.error e =>
              { route := none, alert := some (CheckoutAlert.errorMsg e),
                orderCreateCalls := 1, ordersCreated := 0, cartAfter := cart }
          | Except.ok _ =>
              { route := some Route.paymentSuccess, alert := none,
                orderCreateCalls := 1, ordersCreated := 1, cartAfter := cart }

/-- Number of terminal (success or failure screen) transitions an invocation
performed. -/
def terminalCount (r : CheckoutResult) : Nat :=
  match r.route with
  | some Route.paymentFailure => 1
  | some Route.paymentSuccess => 1
  | _ => 0

/-- The three precondition checks of handlePayment all pass. -/
def checkoutPreconds (cart : CartStore) (address : String) : Prop :=
  isBlank address = false ∧ cart.items.length ≠ 0 ∧
    cart.items.any (fun i => i.product.isNone) = false

instance (cart : CartStore) (address : String) :
    Decidable (checkoutPreconds cart address) :=
  inferInstanceAs (Decidable (isBlank address = false ∧ cart.items.length ≠ 0 ∧
    cart.items.any (fun i => i.product.isNone) = false))

/-- The payment simulation returned success. -/
def paymentApproved (payment : Except String PaymentResult) : Prop :=
  ∃ pr, payment = Except.ok pr ∧ pr.success = true

/-- The payment simulation returned failure. -/
def paymentDeclined (payment : Except String PaymentResult) : Prop :=
  ∃ pr, payment = Except.ok pr ∧ pr.success = false

/-- Order fulfillment status (types/index.ts). -/
inductive OrderStatus where
  | pending
  | confirmed
  | shipped
  | delivered
deriving DecidableEq

/-- Position of a status along the pending, confirmed, shipped, delivered
chain. -/
def statusIndex : OrderStatus → Nat
  | OrderStatus.pending => 0
  | OrderStatus.confirmed => 1
  | OrderStatus.shipped => 2
  | OrderStatus.delivered => 3

/-- Cached order as held by the farmer orders screen.  Buyer contact data,
timestamps and line items are omitted; they play no role in status handling. -/
structure Order where
  id : String
  buyer_id : String
  farmer_id : String
  total_amount : Int
  status : OrderStatus
  shipping_address : String
deriving DecidableEq

/-- renderActionButtons (src/frontend/app/farmer/index.tsx, lines 111-153),
viewed as the advance target it offers for each status: pending offers
confirmed, confirmed offers shipped, shipped offers delivered, and delivered
renders only the completed badge, offering no action. -/
def renderActionButtons : OrderStatus → Option OrderStatus
  | OrderStatus.pending => some OrderStatus.confirmed
  | OrderStatus.confirmed => some OrderStatus.shipped
  | OrderStatus.shipped => some OrderStatus.delivered
  | OrderStatus.delivered => none

/-- Alert shown by handleUpdateStatus: a success note with the new status, or
the error message of a failed request. -/
inductive StatusAlert where
  | successNote (newStatus : OrderStatus)
  | failureNote (msg : String)
deriving DecidableEq

/-- handleUpdateStatus (farmer/index.tsx, lines 72-90).  On request success
the cached list is updated in place (the order with the matching id gets the
new status) with no refetch; on failure the list is untouched and the error
message is alerted. -/
def handleUpdateStatus (orders : List Order) (orderId : String)
    (newStatus : OrderStatus) (api : Except String Unit) :
    List Order × StatusAlert :=
  match api with
  | Except.error e => (orders, StatusAlert.failureNote e)
  | Except.ok _ =>
      (orders.map (fun o =>
        if o.id = orderId then { o with status := newStatus } else o),
        StatusAlert.successNote newStatus)

/-- The advance as invokable from the rendered screen: the button offered by
renderActionButtons (if any) dispatches handleUpdateStatus with the single
legal next status; a delivered order offers nothing, so nothing happens. -/
def advanceViaUI (orders : List Order) (o : Order) (api : Except String Unit) :
    List Order × Option StatusAlert :=
  match renderActionButtons o.status with
  | none => (orders, none)
  | some target =>
      ((handleUpdateStatus orders o.id target api).1,
        some (handleUpdateStatus orders o.id target api).2)

/-- Inbound notification payload (types/index.ts), timestamps omitted. -/
structure Notification where
  id : String
  user_id : String
  type : String
  message : String
  read : Bool
deriving DecidableEq

section SocketService

variable {L : Type} [DecidableEq L] {N : Type}

/-- onNotification (src/frontend/src/services/socket.ts, lines 39-41):
pushes the callback onto the listeners array. -/
def onNotification (ls : List L) (callback : L) : List L :=
  ls ++ [callback]

/-- offNotification (services/socket.ts, lines 43-45): keeps exactly the
registered entries that are not the given callback (reference inequality in
the source, equality of the listener type here). -/
def offNotification (ls : List L) (callback : L) : List L :=
  ls.filter (fun l => decide (l ≠ callback))

/-- notifyListeners (services/socket.ts, lines 47-49): one inbound event is
delivered to each registered entry in order. -/
def notifyListeners (ls : List L) (data : N) : List (L × N) :=
  ls.map (fun l => (l, data))

/-- How many times a given callback is invoked when one inbound event fans
out over the registered listeners. -/
def invocationCount (ls : List L) (data : N) (callback : L) : Nat :=
  ((notifyListeners ls data).filter (fun p => decide (p.1 = callback))).length

/-- Registering the same callback k times in a row via onNotification. -/
def registerTimes (ls : List L) (callback : L) : Nat → List L
  | 0 => ls
  | k + 1 => onNotification (registerTimes ls callback k) callback

end SocketService

/-- Options record handed to the socket.io client; an absent numeric field is
`none`, meaning the library default applies (unbounded attempts, default
delay schedule). -/
structure SocketOptions where
  transports : List String
  reconnection : Bool
  reconnectionDelay : Option Nat
  reconnectionAttempts : Option Nat
deriving DecidableEq

/-- The options passed by SocketService.connect
(src/frontend/src/services/socket.ts, lines 12-15), the module the app
actually imports (app/_layout.tsx, app/orders/index.tsx): reconnection is
enabled but neither a delay nor an attempt bound is specified. -/
def servicesSocketOptions : SocketOptions :=
  { transports := [("websocket")], reconnection := true,
    reconnectionDelay := none, reconnectionAttempts := none }

/-- The options passed by initializeSocket (src/frontend/src/utils/socket.ts,
lines 13-18), a module no app code imports: fixed 1000 ms delay, 5 attempts. -/
def utilsSocketOptions : SocketOptions :=
  { transports := [("websocket")], reconnection := true,
    reconnectionDelay := some 1000, reconnectionAttempts := some 5 }

/-- A configuration bounds its reconnection attempts only when it sets
reconnectionAttempts (the socket.io default is unbounded). -/
def attemptsBounded (o : SocketOptions) : Prop :=
  ∃ n, o.reconnectionAttempts = some n

/-- A configuration fixes its reconnection delay only when it sets
reconnectionDelay. -/
def delaySpecified (o : SocketOptions) : Prop :=
  ∃ d, o.reconnectionDelay = some d

/-! Concrete sample data, used by counterexamples and witnesses.  The prices
and quantities follow the scenario of the specification: product A priced 50
with quantity 2 and product B priced 30 with quantity 1. -/

def prodA : Product :=
  { id := ("pA"), farmer_id := ("f1"), name := ("Product A"),
    category := ("Vegetables"), price := 50, quantity := 10 }

def prodB : Product :=
  { id := ("pB"), farmer_id := ("f1"), name := ("Product B"),
    category := ("Fruits"), price := 30, quantity := 5 }

def itemA : CartItem :=
  { id := ("iA"), buyer_id := ("b1"), product_id := ("pA"),
    quantity := 2, product := some prodA }

def itemB : CartItem :=
  { id := ("iB"), buyer_id := ("b1"), product_id := ("pB"),
    quantity := 1, product := some prodB }

def emptyCartStore : CartStore :=
  { items := [], total := 0, loading := false }

def cart0 : CartStore :=
  { items := [itemA], total := 100, loading := false }

def addr0 : String := "12 Farm Lane"

def okPayment : PaymentResult :=
  { success := true, transaction_id := ("TXN1") }

def resp130 : CartResponse := { items := [itemA, itemB], total := 130 }

def resp100 : CartResponse := { items := [itemA], total := 100 }

def scenarioOps : List CartOp :=
  [CartOp.fetchOp (Except.ok resp130),
    CartOp.removeOp ("iB") (Except.ok ()) (Except.ok resp100),
    CartOp.clearOp (Except.ok ())]

def orderDelivered : Order :=
  { id := ("o1"), buyer_id := ("b1"), farmer_id := ("f1"),
    total_amount := 130, status := OrderStatus.delivered,
    shipping_address := ("12 Farm Lane") }

def orderPending : Order :=
  { id := ("o2"), buyer_id := ("b1"), farmer_id := ("f1"),
    total_amount := 130, status := OrderStatus.pending,
    shipping_address := ("12 Farm Lane") }

def notif0 : Notification :=
  { id := ("n1"), user_id := ("u1"), type := ("order_update"),
    message := ("Your order has been confirmed"), read := false }

/-! Statements of the specification claims that the code refutes, kept as
named propositions so that each refutation is a single closed theorem. -/

/-- Claim C1 as stated: past the precondition checks, every handlePayment
invocation performs exactly one terminal transition, ends in one of exactly two
outcomes (payment declined with cart unchanged and no order, or payment
approved with one order created and the cart emptied), and the cart is cleared
exactly when order creation succeeded. -/
def claimC1 : Prop :=
  ∀ (cart : CartStore) (address : String) (payment : Except String PaymentResult)
    (orderCreate : Except String Unit),
    checkoutPreconds cart address →
    terminalCount (handlePayment cart address payment orderCreate) = 1 ∧
    ((paymentDeclined payment ∧
        (handlePayment cart address payment orderCreate).cartAfter = cart ∧
        (handlePayment cart address payment orderCreate).ordersCreated = 0) ∨
      (paymentApproved payment ∧
        (handlePayment cart address payment orderCreate).ordersCreated = 1 ∧
        (handlePayment cart address payment orderCreate).cartAfter.items = [])) ∧
    ((handlePayment cart address payment orderCreate).cartAfter.items = [] ↔
      (handlePayment cart address payment orderCreate).ordersCreated = 1)

/-- Claim C3 as stated: a failing cart fetch leaves the cached items and total
intact and surfaces an error to the caller. -/
def claimC3 : Prop :=
  ∀ (st : CartStore) (e : String),
    (fetchCartCall st (Except.error e)).1.items = st.items ∧
    (fetchCartCall st (Except.error e)).1.total = st.total ∧
    (fetchCartCall st (Except.error e)).2.isSome = true

/-- Claim C9 as stated: the live notification channel configures a fixed
reconnection delay and a bound on reconnection attempts. -/
def claimC9 : Prop :=
  attemptsBounded servicesSocketOptions ∧ delaySpecified servicesSocketOptions

/-- C5: a cart-screen quantity update to 0 or to -1 (in fact to any value
below 1) dispatches exactly the same action as removing the item. -/
theorem updateQuantity_below_one_is_remove (itemId : String) :
    handleUpdateQuantity itemId 0 = handleRemoveItem itemId ∧
    handleUpdateQuantity itemId (-1) = handleRemoveItem itemId ∧
    ∀ q : Int, q < 1 → handleUpdateQuantity itemId q = handleRemoveItem itemId := by
  refine ⟨rfl, rfl, ?_⟩
  intro q hq
  simp [handleUpdateQuantity, if_pos hq]

/-- Witness for C5 at a concrete item id and quantities. -/
theorem updateQuantity_below_one_is_remove_witness :
    handleUpdateQuantity ("iA") 0 = handleRemoveItem ("iA") ∧
    handleUpdateQuantity ("iA") (-5) = handleRemoveItem ("iA") :=
  ⟨(updateQuantity_below_one_is_remove ("iA")).1,
    (updateQuantity_below_one_is_remove ("iA")).2.2 (-5) (by decide)⟩

/-- C6: the status-advance interface only offers the single next status along
pending, confirmed, shipped, delivered (one step forward each time); a
delivered order offers no action, so invoking the advance flow on it leaves
the cached list untouched; and a rejected advance request (as the server
issues for a non-owning farmer or an illegal transition) leaves the cached
list untouched. -/
theorem order_status_advance_safety :
    (∀ s t : OrderStatus, renderActionButtons s = some t →
      statusIndex t = statusIndex s + 1) ∧
    renderActionButtons OrderStatus.delivered = none ∧
    (∀ (orders : List Order) (o : Order) (api : Except String Unit),
      o.status = OrderStatus.delivered → advanceViaUI orders o api = (orders, none)) ∧
    (∀ (orders : List Order) (orderId : String) (newStatus : OrderStatus) (e : String),
      (handleUpdateStatus orders orderId newStatus (Except.error e)).1 = orders) := by
  refine ⟨?_, rfl, ?_, ?_⟩
  · intro s t h
    cases s <;> simp [renderActionButtons] at h <;> simp [h.symm, statusIndex]
  · intro orders o api h
    simp [advanceViaUI, h, renderActionButtons]
  · intro orders orderId newStatus e
    rfl

/-- Witness for C6 at concrete statuses, a delivered order and a rejected
request. -/
theorem order_status_advance_safety_witness :
    statusIndex OrderStatus.confirmed = statusIndex OrderStatus.pending + 1 ∧
    advanceViaUI [orderDelivered] orderDelivered (Except.ok ()) =
      ([orderDelivered], none) ∧
    (handleUpdateStatus [orderPending] ("o2") OrderStatus.confirmed
      (Except.error ("Not authorized"))).1 = [orderPending] :=
  ⟨order_status_advance_safety.1 OrderStatus.pending OrderStatus.confirmed rfl,
    order_status_advance_safety.2.2.1 [orderDelivered] orderDelivered
      (Except.ok ()) rfl,
    order_status_advance_safety.2.2.2 [orderPending] ("o2")
      OrderStatus.confirmed ("Not authorized")⟩

/-- C7: on a successful status-update request, the cached order with the given
id gets the requested status immediately (every other cached order is kept as
is, the list length is unchanged, and the new list is a pure function of the
old one, with no refetch consumed); on a failed request the cached list is
returned unchanged and the error message is surfaced. -/
theorem status_update_optimistic_or_unchanged (orders : List Order)
    (orderId : String) (newStatus : OrderStatus) :
    (∀ o, o ∈ orders → o.id = orderId →
      ({ o with status := newStatus }) ∈
        (handleUpdateStatus orders orderId newStatus (Except.ok ())).1) ∧
    (∀ o, o ∈ orders → o.id ≠ orderId →
      o ∈ (handleUpdateStatus orders orderId newStatus (Except.ok ())).1) ∧
    (handleUpdateStatus orders orderId newStatus (Except.ok ())).1.length =
      orders.length ∧
    (handleUpdateStatus orders orderId newStatus (Except.ok ())).2 =
      StatusAlert.successNote newStatus ∧
    (∀ e, handleUpdateStatus orders orderId newStatus (Except.error e) =
      (orders, StatusAlert.failureNote e)) := by
  refine ⟨?_, ?_, ?_, rfl, fun e => rfl⟩
  · intro o ho hid
    refine List.mem_map.mpr ⟨o, ho, ?_⟩
    rw [if_pos hid]
  · intro o ho hid
    refine List.mem_map.mpr ⟨o, ho, ?_⟩
    rw [if_neg hid]
  · simp [handleUpdateStatus]

/-- Witness for C7 on a concrete one-order cache. -/
theorem status_update_optimistic_or_unchanged_witness :
    ({ orderPending with status := OrderStatus.confirmed }) ∈
      (handleUpdateStatus [orderPending] ("o2") OrderStatus.confirmed
        (Except.ok ())).1 :=
  (status_update_optimistic_or_unchanged [orderPending] ("o2")
    OrderStatus.confirmed).1 orderPending (by decide) (by decide)

/-- C9 counterexample: the claim is false because the live channel's options
set no attempt bound at all (the field is absent, so the library default of
unbounded attempts applies). -/
theorem claimC9_counterexample :
    (¬ claimC9) ∧ servicesSocketOptions.reconnectionAttempts = none := by
  refine ⟨?_, rfl⟩
  rintro ⟨⟨n, hn⟩, -⟩
  simp [servicesSocketOptions] at hn

/-- C9 (corrected): the module the app imports enables reconnection with
neither a delay nor an attempt bound configured, while the fixed 1000 ms
delay and the 5-attempt bound exist only in the unused utils module. -/
theorem reconnection_policy_amended :
    servicesSocketOptions.reconnection = true ∧
    servicesSocketOptions.reconnectionAttempts = none ∧
    servicesSocketOptions.reconnectionDelay = none ∧
    utilsSocketOptions.reconnectionAttempts = some 5 ∧
    utilsSocketOptions.reconnectionDelay = some 1000 ∧
    attemptsBounded utilsSocketOptions ∧ delaySpecified utilsSocketOptions :=
  ⟨rfl, rfl, rfl, rfl, rfl, ⟨5, rfl⟩, ⟨1000, rfl⟩⟩

/-- C3 counterexample: the claim is false because the failing fetch swallows
the error (the catch block only logs), so nothing is surfaced to the caller. -/
theorem claimC3_counterexample : ¬ claimC3 := by
  intro h
  have h2 := (h cart0 ("network error")).2.2
  simp [fetchCartCall] at h2

/-- C3 (corrected): a failing cart fetch leaves the cached items and total
completely intact (never a partial overwrite) and only resets the loading
flag, but it swallows the error instead of surfacing it to the caller. -/
theorem fetchCart_failure_amended (st : CartStore) (e : String) :
    (fetchCartCall st (Except.error e)).1.items = st.items ∧
    (fetchCartCall st (Except.error e)).1.total = st.total ∧
    (fetchCartCall st (Except.error e)).1.loading = false ∧
    (fetchCartCall st (Except.error e)).2 = none :=
  ⟨rfl, rfl, rfl, rfl⟩

/-! Helper lemmas about the listener registry. -/

lemma invocationCount_nil {L : Type} [DecidableEq L] {N : Type}
    (data : N) (callback : L) :
    invocationCount ([] : List L) data callback = 0 := rfl

lemma invocationCount_cons {L : Type} [DecidableEq L] {N : Type}
    (a : L) (t : List L) (data : N) (callback : L) :
    invocationCount (a :: t) data callback =
      (if a = callback then 1 else 0) + invocationCount t data callback := by
  by_cases h : a = callback <;>
    simp [invocationCount, notifyListeners, List.filter_cons, h] <;> omega

lemma invocationCount_append {L : Type} [DecidableEq L] {N : Type}
    (xs ys : List L) (data : N) (callback : L) :
    invocationCount (xs ++ ys) data callback =
      invocationCount xs data callback + invocationCount ys data callback := by
  induction xs with
  | nil => simp [invocationCount_nil]
  | cons a t ih =>
      rw [List.cons_append, invocationCount_cons, invocationCount_cons, ih,
        Nat.add_assoc]

lemma invocationCount_zero_of_not_mem {L : Type} [DecidableEq L] {N : Type}
    (ls : List L) (data : N) (callback : L) :
    callback ∉ ls → invocationCount ls data callback = 0 := by
  induction ls with
  | nil => intro _; rfl
  | cons a t ih =>
      intro h
      have ha : ¬ a = callback := by
        intro hh
        exact h (by rw [← hh]; exact List.mem_cons_self a t)
      have ht : callback ∉ t := fun hc => h (List.mem_cons_of_mem a hc)
      rw [invocationCount_cons, if_neg ha, ih ht]

lemma invocationCount_off {L : Type} [DecidableEq L] {N : Type}
    (ls : List L) (data : N) (callback : L) :
    invocationCount (offNotification ls callback) data callback = 0 := by
  induction ls with
  | nil => rfl
  | cons a t ih =>
      show invocationCount
        (List.filter (fun l => decide (l ≠ callback)) (a :: t)) data callback = 0
      rw [List.filter_cons]
      by_cases h : a = callback
      · rw [if_neg (by simp [h])]
        exact ih
      · rw [if_pos (by simp [h]), invocationCount_cons, if_neg h]
        simpa [offNotification] using ih

lemma invocationCount_one_of_nodup {L : Type} [DecidableEq L] {N : Type}
    (ls : List L) (data : N) (callback : L) :
    ls.Nodup → callback ∈ ls → invocationCount ls data callback = 1 := by
  induction ls with
  | nil => intro _ hmem; exact absurd hmem (List.not_mem_nil callback)
  | cons a t ih =>
      intro hnd hmem
      obtain ⟨hna, hnt⟩ := List.nodup_cons.mp hnd
      rcases List.mem_cons.mp hmem with h | h
      · rw [invocationCount_cons, if_pos h.symm,
          invocationCount_zero_of_not_mem t data callback (by rw [h]; exact hna)]
      · have ha : ¬ a = callback := by
          intro hh
          exact hna (by rw [hh]; exact h)
        rw [invocationCount_cons, if_neg ha, ih hnt h]

/-- C8: with distinct registered listeners, one inbound event invokes each
registered listener exactly once; and after offNotification of a listener that
listener is invoked zero times by any further event. -/
theorem listener_fanout_exactly_once {L : Type} [DecidableEq L] {N : Type}
    (ls : List L) (data : N) (callback : L) :
    ls.Nodup → callback ∈ ls →
    invocationCount ls data callback = 1 ∧
    invocationCount (offNotification ls callback) data callback = 0 := by
  intro hnd hmem
  exact ⟨invocationCount_one_of_nodup ls data callback hnd hmem,
    invocationCount_off ls data callback⟩

/-- Witness for C8 on three concrete listeners and a concrete event. -/
theorem listener_fanout_exactly_once_witness :
    invocationCount [(0 : Nat), 1, 2] notif0 1 = 1 ∧
    invocationCount (offNotification [(0 : Nat), 1, 2] 1) notif0 1 = 0 :=
  listener_fanout_exactly_once [(0 : Nat), 1, 2] notif0 1 (by decide) (by decide)

/-- C10: registering the same callback k times over a registry that does not
yet hold it makes one inbound event invoke it exactly k times, and a single
offNotification removes all k registrations (the delivery count drops to zero,
not to k minus one). -/
theorem duplicate_registration_counts {L : Type} [DecidableEq L] {N : Type}
    (ls : List L) (callback : L) (data : N) (k : Nat) :
    invocationCount ls data callback = 0 →
    invocationCount (registerTimes ls callback k) data callback = k ∧
    invocationCount (offNotification (registerTimes ls callback k) callback)
      data callback = 0 := by
  intro h0
  refine ⟨?_, invocationCount_off _ _ _⟩
  induction k with
  | zero => simpa [registerTimes] using h0
  | succ k ih =>
      have hstep : registerTimes ls callback (k + 1) =
          registerTimes ls callback k ++ [callback] := rfl
      rw [hstep, invocationCount_append, ih, invocationCount_cons, if_pos rfl,
        invocationCount_nil]

/-- Witness for C10: three duplicate registrations of listener 2 over the
registry holding listeners 0 and 1. -/
theorem duplicate_registration_counts_witness :
    invocationCount (registerTimes [(0 : Nat), 1] 2 3) notif0 2 = 3 ∧
    invocationCount (offNotification (registerTimes [(0 : Nat), 1] 2 3) 2)
      notif0 2 = 0 :=
  duplicate_registration_counts [(0 : Nat), 1] 2 notif0 3 (by decide)

/-- One Cart Manager operation preserves consistency of the cache, given that
every successful cart response it carries is consistent. -/
lemma runOp_preserves_consistency (st : CartStore) (op : CartOp)
    (h : st.total = cartSum st.items) (hop : opConsistent op = true) :
    (runOp st op).total = cartSum (runOp st op).items := by
  cases op with
  | fetchOp remote =>
      cases remote with
      | ok r =>
          have hr : r.total = cartSum r.items := by
            simpa [opConsistent, respConsistent] using hop
          simpa [runOp, fetchCart] using hr
      | error e => simpa [runOp, fetchCart] using h
  | addOp pid q res remote =>
      cases res with
      | error e => simpa [runOp, addToCart] using h
      | ok u =>
          cases remote with
          | ok r =>
              have hr : r.total = cartSum r.items := by
                simpa [opConsistent, respConsistent] using hop
              simpa [runOp, addToCart, fetchCart] using hr
          | error e => simpa [runOp, addToCart, fetchCart] using h
  | updateOp iid q res remote =>
      cases res with
      | error e => simpa [runOp, updateQuantity] using h
      | ok u =>
          cases remote with
          | ok r =>
              have hr : r.total = cartSum r.items := by
                simpa [opConsistent, respConsistent] using hop
              simpa [runOp, updateQuantity, fetchCart] using hr
          | error e => simpa [runOp, updateQuantity, fetchCart] using h
  | removeOp iid res remote =>
      cases res with
      | error e => simpa [runOp, removeFromCart] using h
      | ok u =>
          cases remote with
          | ok r =>
              have hr : r.total = cartSum r.items := by
                simpa [opConsistent, respConsistent] using hop
              simpa [runOp, removeFromCart, fetchCart] using hr
          | error e => simpa [runOp, removeFromCart, fetchCart] using h
  | clearOp res =>
      cases res with
      | error e => simpa [runOp, clearCart] using h
      | ok u => simp [runOp, clearCart, cartSum]

/-- C4: starting from a consistent cache, after any sequence of Cart Manager
operations whose successful server responses are consistent, the cached total
equals the sum over the cached items of quantity times product price. -/
theorem cart_total_invariant (ops : List CartOp) (st : CartStore)
    (h : st.total = cartSum st.items)
    (hops : ∀ op ∈ ops, opConsistent op = true) :
    (runOps st ops).total = cartSum (runOps st ops).items := by
  induction ops generalizing st with
  | nil => exact h
  | cons op rest ih =>
      have hop := hops op (List.mem_cons_self op rest)
      have hrest : ∀ o ∈ rest, opConsistent o = true :=
        fun o ho => hops o (List.mem_cons_of_mem op ho)
      exact ih (runOp st op) (runOp_preserves_consistency st op h hop) hrest

/-- Witness for C4 on the specification scenario: fetch a two-item cart
(total 130), remove the second item (total 100), then clear. -/
theorem cart_total_invariant_witness :
    (runOps emptyCartStore scenarioOps).total =
      cartSum (runOps emptyCartStore scenarioOps).items :=
  cart_total_invariant scenarioOps emptyCartStore (by decide) (by decide)

/-- C1 counterexample: the claim fails at a concrete approved payment with
successful order creation, because handlePayment never clears the cart cache
(the claimed equivalence between an emptied cart and a created order is
violated); moreover, at the same input with order creation failing, no
terminal transition at all is performed. -/
theorem claimC1_counterexample :
    (¬ claimC1) ∧
    terminalCount (handlePayment cart0 addr0 (Except.ok okPayment)
      (Except.error ("Order creation failed"))) = 0 := by
  constructor
  · intro h
    have h2 := h cart0 addr0 (Except.ok okPayment) (Except.ok ()) (by decide)
    have h3 := h2.2.2.mpr (by decide)
    exact absurd h3 (by decide)
  · rfl

/-- C1 (corrected): handlePayment never mutates the cart cache and performs at
most one terminal transition; past the preconditions, exactly one of three
outcomes occurs: payment declined (failure screen, no order), payment approved
and order creation succeeded (success screen, exactly one order, cart cache
unchanged), or an error thrown (no terminal transition, an error alert, no
order created). -/
theorem handlePayment_outcomes (cart : CartStore) (address : String)
    (payment : Except String PaymentResult) (orderCreate : Except String Unit) :
    (handlePayment cart address payment orderCreate).cartAfter = cart ∧
    terminalCount (handlePayment cart address payment orderCreate) ≤ 1 ∧
    (checkoutPreconds cart address →
      (paymentDeclined payment ∧
        (handlePayment cart address payment orderCreate).route =
          some Route.paymentFailure ∧
        (handlePayment cart address payment orderCreate).ordersCreated = 0 ∧
        (handlePayment cart address payment orderCreate).orderCreateCalls = 0) ∨
      (paymentApproved payment ∧ orderCreate = Except.ok () ∧
        (handlePayment cart address payment orderCreate).route =
          some Route.paymentSuccess ∧
        (handlePayment cart address payment orderCreate).ordersCreated = 1) ∨
      ((handlePayment cart address payment orderCreate).route = none ∧
        (∃ e, (handlePayment cart address payment orderCreate).alert =
          some (CheckoutAlert.errorMsg e)) ∧
        (handlePayment cart address payment orderCreate).ordersCreated = 0)) := by
  refine ⟨?_, ?_, ?_⟩
  · unfold handlePayment
    repeat' split
    all_goals rfl
  · unfold handlePayment
    repeat' split
    all_goals simp [terminalCount]
  · rintro ⟨hb, hlen, hinv⟩
    rcases payment with e | pr
    · right; right
      refine ⟨?_, ⟨e, ?_⟩, ?_⟩ <;> simp [handlePayment, hb, hlen, hinv]
    · cases hs : pr.success with
      | false =>
          left
          refine ⟨⟨pr, rfl, hs⟩, ?_, ?_, ?_⟩ <;>
            simp [handlePayment, hb, hlen, hinv, hs]
      | true =>
          rcases orderCreate with e | u
          · right; right
            refine ⟨?_, ⟨e, ?_⟩, ?_⟩ <;> simp [handlePayment, hb, hlen, hinv, hs]
          · right; left
            refine ⟨⟨pr, rfl, hs⟩, rfl, ?_, ?_⟩ <;>
              simp [handlePayment, hb, hlen, hinv, hs]

/-- Witness for the corrected C1 at the concrete approved payment with
successful order creation. -/
theorem handlePayment_outcomes_witness :
    (paymentDeclined (Except.ok okPayment) ∧
      (handlePayment cart0 addr0 (Except.ok okPayment) (Except.ok ())).route =
        some Route.paymentFailure ∧
      (handlePayment cart0 addr0 (Except.ok okPayment) (Except.ok ())).ordersCreated = 0 ∧
      (handlePayment cart0 addr0 (Except.ok okPayment) (Except.ok ())).orderCreateCalls = 0) ∨
    (paymentApproved (Except.ok okPayment) ∧ (Except.ok () : Except String Unit) = Except.ok () ∧
      (handlePayment cart0 addr0 (Except.ok okPayment) (Except.ok ())).route =
        some Route.paymentSuccess ∧
      (handlePayment cart0 addr0 (Except.ok okPayment) (Except.ok ())).ordersCreated = 1) ∨
    ((handlePayment cart0 addr0 (Except.ok okPayment) (Except.ok ())).route = none ∧
      (∃ e, (handlePayment cart0 addr0 (Except.ok okPayment) (Except.ok ())).alert =
        some (CheckoutAlert.errorMsg e)) ∧
      (handlePayment cart0 addr0 (Except.ok okPayment) (Except.ok ())).ordersCreated = 0) :=
  (handlePayment_outcomes cart0 addr0 (Except.ok okPayment) (Except.ok ())).2.2
    (by decide)

/-- C2: past the preconditions, an order-creation failure after an approved
payment shows an error alert carrying the thrown message, performs no
navigation, and attempts order creation exactly once (no silent retry); its
outcome differs in both navigation and alert from the generic payment-declined
path, which navigates to the failure screen with no alert. -/
theorem order_failure_distinct_path (cart : CartStore) (address : String)
    (pr : PaymentResult) (e : String) (tid : String)
    (orderCreate : Except String Unit)
    (hp : checkoutPreconds cart address) (hs : pr.success = true) :
    (handlePayment cart address (Except.ok pr) (Except.error e)).route = none ∧
    (handlePayment cart address (Except.ok pr) (Except.error e)).alert =
      some (CheckoutAlert.errorMsg e) ∧
    (handlePayment cart address (Except.ok pr) (Except.error e)).orderCreateCalls = 1 ∧
    (handlePayment cart address
      (Except.ok (PaymentResult.mk false tid)) orderCreate).route =
      some Route.paymentFailure ∧
    (handlePayment cart address (Except.ok pr) (Except.error e)).route ≠
      (handlePayment cart address
        (Except.ok (PaymentResult.mk false tid)) orderCreate).route ∧
    (handlePayment cart address (Except.ok pr) (Except.error e)).alert ≠
      (handlePayment cart address
        (Except.ok (PaymentResult.mk false tid)) orderCreate).alert := by
  obtain ⟨hb, hlen, hinv⟩ := hp
  refine ⟨?_, ?_, ?_, ?_, ?_, ?_⟩ <;> simp [handlePayment, hb, hlen, hinv, hs]

/-- Witness for C2 at the concrete cart, address and payment result. -/
theorem order_failure_distinct_path_witness :
    (handlePayment cart0 addr0 (Except.ok okPayment)
      (Except.error ("Insufficient stock"))).route ≠
      (handlePayment cart0 addr0
        (Except.ok (PaymentResult.mk false ("TXN2"))) (Except.ok ())).route :=
  (order_failure_distinct_path cart0 addr0 okPayment ("Insufficient stock")
    ("TXN2") (Except.ok ()) (by decide) rfl).2.2.2.2.1

end Agrihub
